import Mathlib

/-!
# The Python destination driver of syslog-ng (modules/python/python-dest.c)

A shallow embedding of `python-dest.c`.  The C functions become Lean functions of the
same name.  The embedded interpreter and the host driver framework are not part of
the file: every call into them is a field of `Env`, a transition on an arbitrary
world state `σ`, and every such call is recorded in the event trace of the operation.
-/

namespace PythonDest

/-! ## Strings -/

/-- A gchar string: the gchars before the terminating NUL, one `Char` per gchar. -/
abbrev CStr := List Char

/-- What `g_strlcpy (buf, src, buf_len)` leaves in `buf`: at most `buf_len - 1` gchars. -/
def g_strlcpy (src : CStr) (buf_len : Nat) : CStr :=
  src.take (buf_len - 1)

/-- What `g_snprintf (buf, n, ...)` leaves in `buf`, given the fully formatted text. -/
def g_snprintf (n : Nat) (formatted : CStr) : CStr :=
  formatted.take (n - 1)

/-- The expansion of one `%s` directive.  `null_text` is what the C library prints for
a NULL argument (the text `(null)` with glibc); it is not fixed by this file. -/
def fmt_s (null_text : CStr) : Option CStr → CStr
  | some s => s
  | none => null_text

/-! ## The driver instance -/

/-- A reference to an object of the interpreter (a non-NULL `PyObject *`). -/
abbrev PyObject := Nat

/-- The anonymous struct `py` of `PythonDestDriver`; `none` is NULL. -/
structure PyBindings where
  module : Option PyObject
  init : Option PyObject
  queue : Option PyObject
  deinit : Option PyObject
  deriving DecidableEq, Repr

/-- The fields of `PythonDestDriver` that `python-dest.c` reads or writes.  `id` is
`super.super.super.id`, `on_error` is `template_options.on_error`, `seq_num` is
`super.seq_num`, and `vp` tells whether the value-pairs pointer is set. -/
structure PythonDestDriver where
  id : Option CStr
  filename : Option CStr
  init_func_name : Option CStr
  queue_func_name : Option CStr
  deinit_func_name : Option CStr
  imports : List CStr
  on_error : Nat
  seq_num : Nat
  vp : Bool
  py : PyBindings
  deriving DecidableEq, Repr

/-! ## Helpers for stats and persist_name formatting -/

/-- The text that the format `python,%s,%s,%s,%s` expands to, before it is cut to the
size of the buffer. -/
def stats_instance_text (null_text : CStr) (self : PythonDestDriver) : CStr :=
  "python,".toList ++ fmt_s null_text self.filename ++ ",".toList
    ++ fmt_s null_text self.init_func_name ++ ",".toList
    ++ fmt_s null_text self.queue_func_name ++ ",".toList
    ++ fmt_s null_text self.deinit_func_name

/-- The function `python_dd_format_stats_instance`: the content of the static
1024-gchar buffer it returns. -/
def python_dd_format_stats_instance (null_text : CStr) (self : PythonDestDriver) : CStr :=
  g_snprintf 1024 (stats_instance_text null_text self)

/-- The text that the format `python(%s,%s,%s,%s)` expands to, before it is cut to the
size of the buffer. -/
def persist_name_text (null_text : CStr) (self : PythonDestDriver) : CStr :=
  "python(".toList ++ fmt_s null_text self.filename ++ ",".toList
    ++ fmt_s null_text self.init_func_name ++ ",".toList
    ++ fmt_s null_text self.queue_func_name ++ ",".toList
    ++ fmt_s null_text self.deinit_func_name ++ ")".toList

/-- The function `python_dd_format_persist_name`: the content of the static
1024-gchar buffer it returns. -/
def python_dd_format_persist_name (null_text : CStr) (self : PythonDestDriver) : CStr :=
  g_snprintf 1024 (persist_name_text null_text self)

/-! ## Events, the environment, and actions -/

/-- One `evt_tag_str (name, value)` of a diagnostic message. -/
structure EvtTag where
  name : String
  value : Option CStr
  deriving DecidableEq, Repr

/-- The constructor of an event tag, `evt_tag_str`. -/
def evt_tag_str (name : String) (value : Option CStr) : EvtTag :=
  ⟨name, value⟩

/-- A log message handed to the worker, as the record it carries. -/
abbrev LogMessage := List (CStr × CStr)

/-- What `_py_format_exception_text` finds when it fetches and normalises the pending
exception: the `tp_name` of the exception type, and the C string of `PyObject_Str` of
the exception value (`none` when `PyObject_Str` fails). -/
structure PyExc where
  tp_name : CStr
  str : Option CStr
  deriving DecidableEq, Repr

/-- The result of `PyObject_CallFunctionObjArgs`: a returned object, or NULL with an
exception pending. -/
inductive CallResult where
  | returned (ret : PyObject)
  | raised (exc : PyExc)
  deriving DecidableEq, Repr

/-- The calls that leave `python-dest.c`, in the order in which an operation makes
them.  Reference counting and `g_free` are not recorded. -/
inductive Event where
  | PyGILState_Ensure
  | PyGILState_Release
  | PyUnicode_FromString (s : CStr)
  | PyImport_Import (name : PyObject)
  | PyObject_GetAttrString (o : PyObject) (attr : CStr)
  | PyObject_CallFunctionObjArgs (func : PyObject) (arg : Option PyObject)
  | py_value_pairs_apply (seq_num : Nat) (msg : LogMessage)
  | msg_error (desc : String) (tags : List EvtTag)
  | msg_verbose (desc : String) (tags : List EvtTag)
  | log_dest_driver_init_method
  | log_threaded_dest_driver_start
  | log_threaded_dest_driver_deinit_method
  | log_template_options_destroy
  | value_pairs_free
  | log_threaded_dest_driver_free
  deriving DecidableEq, Repr

/-- The interpreter and the host framework.  Each call is a transition on the world
state `σ`; what it answers may depend on everything that happened before.
`ON_ERROR_DROP_MESSAGE` is the flag bit of that name, declared by the host. -/
structure Env (σ : Type) where
  ON_ERROR_DROP_MESSAGE : Nat
  PyUnicode_FromString : CStr → σ → Option PyObject × σ
  PyImport_Import : PyObject → σ → Option PyObject × σ
  PyObject_GetAttrString : PyObject → CStr → σ → Option PyObject × σ
  PyString_AsString : PyObject → σ → CStr
  PyObject_CallFunctionObjArgs : PyObject → Option PyObject → σ → CallResult × σ
  py_value_pairs_apply : Nat → Nat → LogMessage → σ → (Bool × Option PyObject) × σ
  log_dest_driver_init_method : σ → Bool × σ
  log_template_options_init : Nat → Nat
  log_threaded_dest_driver_start : σ → Bool × σ
  log_threaded_dest_driver_deinit_method : σ → Bool × σ

/-- The outcome of running a piece of the driver: its return value, the world state
it leaves, and the events it produced, oldest first. -/
structure Out (σ α : Type) where
  ret : α
  st : σ
  trace : List Event

/-- A piece of the driver, run from a world state. -/
def Act (σ α : Type) : Type := σ → Out σ α

/-- Return without touching the world. -/
def Act.pure {σ α : Type} (a : α) : Act σ α :=
  fun s => ⟨a, s, []⟩

/-- Sequencing: the second piece starts from the state the first one left, and its
events follow those of the first. -/
def Act.bind {σ α β : Type} (m : Act σ α) (f : α → Act σ β) : Act σ β :=
  fun s => ⟨(f (m s).ret (m s).st).ret, (f (m s).ret (m s).st).st,
    (m s).trace ++ (f (m s).ret (m s).st).trace⟩

instance {σ : Type} : Monad (Act σ) where
  pure := Act.pure
  bind := Act.bind

/-- An event that asks nothing of the world. -/
def emit {σ : Type} (e : Event) : Act σ Unit :=
  fun s => ⟨(), s, [e]⟩

/-- A call into the environment: the event, then the answer and the new state. -/
def call {σ α : Type} (e : Event) (f : σ → α × σ) : Act σ α :=
  fun s => ⟨(f s).1, (f s).2, [e]⟩

/-- The logging call `msg_error`. -/
def msg_error {σ : Type} (desc : String) (tags : List EvtTag) : Act σ Unit :=
  emit (Event.msg_error desc tags)

/-- The logging call `msg_verbose`. -/
def msg_verbose {σ : Type} (desc : String) (tags : List EvtTag) : Act σ Unit :=
  emit (Event.msg_verbose desc tags)

/-- The call `PyGILState_Ensure`. -/
def PyGILState_Ensure {σ : Type} : Act σ Unit :=
  emit Event.PyGILState_Ensure

/-- The call `PyGILState_Release`. -/
def PyGILState_Release {σ : Type} : Act σ Unit :=
  emit Event.PyGILState_Release

/-- The loop `g_list_foreach`. -/
def g_list_foreach {σ α : Type} : List α → (α → Act σ Unit) → Act σ Unit
  | [], _ => pure ()
  | x :: xs, f => do
    f x
    g_list_foreach xs f

/-! ## Python calling helpers -/

/-- The function `_py_get_callable_name`: the `__name__` of the callable cut to the
buffer, or the placeholder.  A `__name__` that is not a string is outside the model:
`PyString_AsString` always yields a C string here. -/
def _py_get_callable_name {σ : Type} (E : Env σ) (callable : PyObject) (buf_len : Nat) :
    Act σ CStr := do
  let name ← call (Event.PyObject_GetAttrString callable "__name__".toList)
    (E.PyObject_GetAttrString callable "__name__".toList)
  match name with
  | some n => fun s => ⟨g_strlcpy (E.PyString_AsString n s) buf_len, s, []⟩
  | none => pure (g_strlcpy "<unknown>".toList buf_len)

/-- The function `_py_format_exception_text`, on the exception that the failed call
left pending. -/
def _py_format_exception_text (exc : PyExc) (buf_len : Nat) : CStr :=
  match exc.str with
  | some str => g_snprintf buf_len (exc.tp_name ++ ": ".toList ++ str)
  | none => g_strlcpy "<unknown>".toList buf_len

/-- The function `_py_invoke_function`.  The pending exception travels with the result
of the call, so the two tag values are each computed as their helper computes it. -/
def _py_invoke_function {σ : Type} (E : Env σ) (self : PythonDestDriver) (func : PyObject)
    (arg : Option PyObject) : Act σ Bool := do
  let ret ← call (Event.PyObject_CallFunctionObjArgs func arg)
    (E.PyObject_CallFunctionObjArgs func arg)
  match ret with
  | CallResult.raised exc => do
    let buf1 ← _py_get_callable_name E func 256
    msg_error "Exception while calling a Python function"
      [evt_tag_str "driver" self.id,
       evt_tag_str "script" self.filename,
       evt_tag_str "function" (some buf1),
       evt_tag_str "exception" (some (_py_format_exception_text exc 256))]
    pure false
  | CallResult.returned _ => pure true

/-- The function `_py_do_import`. -/
def _py_do_import {σ : Type} (E : Env σ) (self : PythonDestDriver) (modname : CStr) :
    Act σ (Option PyObject) := do
  let module ← call (Event.PyUnicode_FromString modname) (E.PyUnicode_FromString modname)
  match module with
  | none => do
    msg_error "Error allocating Python string"
      [evt_tag_str "driver" self.id, evt_tag_str "string" (some modname)]
    pure none
  | some module => do
    let modobj ← call (Event.PyImport_Import module) (E.PyImport_Import module)
    match modobj with
    | none => do
      msg_error "Error loading Python module"
        [evt_tag_str "driver" self.id, evt_tag_str "module" (some modname)]
      pure none
    | some modobj => pure (some modobj)

/-- The callback `_foreach_import`. -/
def _foreach_import {σ : Type} (E : Env σ) (self : PythonDestDriver) (modname : CStr) :
    Act σ Unit := do
  let _mod ← _py_do_import E self modname
  pure ()

/-- The function `_py_perform_imports`. -/
def _py_perform_imports {σ : Type} (E : Env σ) (self : PythonDestDriver) : Act σ Unit :=
  g_list_foreach self.imports (_foreach_import E self)

/-- The function `_py_invoke_queue`.  With no queue binding the C code hands NULL to
the interpreter as the callable, which is undefined: the result is `none`. -/
def _py_invoke_queue {σ : Type} (E : Env σ) (self : PythonDestDriver)
    (dict : Option PyObject) : Act σ (Option Bool) :=
  match self.py.queue with
  | none => pure none
  | some queue => do
    let r ← _py_invoke_function E self queue dict
    pure (some r)

/-- The function `_py_invoke_init`. -/
def _py_invoke_init {σ : Type} (E : Env σ) (self : PythonDestDriver) : Act σ Bool :=
  match self.py.init with
  | none => pure true
  | some init => _py_invoke_function E self init none

/-- The function `_py_invoke_deinit`. -/
def _py_invoke_deinit {σ : Type} (E : Env σ) (self : PythonDestDriver) : Act σ Bool :=
  match self.py.deinit with
  | none => pure true
  | some deinit => _py_invoke_function E self deinit none

/-! ## The worker -/

/-- The type `worker_insert_result_t`, with the two values the driver returns. -/
inductive worker_insert_result_t where
  | WORKER_INSERT_RESULT_SUCCESS
  | WORKER_INSERT_RESULT_DROP
  deriving DecidableEq, Repr

/-- The function `python_dd_insert`.  The result is `none` exactly when
`_py_invoke_queue` is undefined. -/
def python_dd_insert {σ : Type} (E : Env σ) (self : PythonDestDriver) (msg : LogMessage) :
    Act σ (Option worker_insert_result_t) := do
  PyGILState_Ensure
  let r ← call (Event.py_value_pairs_apply self.seq_num msg)
    (E.py_value_pairs_apply self.on_error self.seq_num msg)
  let success ←
    if !r.1 && (self.on_error &&& E.ON_ERROR_DROP_MESSAGE != 0) then
      pure (some r.1)
    else
      _py_invoke_queue E self r.2
  match success with
  | none => pure none
  | some success => do
    PyGILState_Release
    if success then
      pure (some worker_insert_result_t.WORKER_INSERT_RESULT_SUCCESS)
    else
      pure (some worker_insert_result_t.WORKER_INSERT_RESULT_DROP)

/-! ## Bindings and the life cycle -/

/-- The function `_py_get_attr_or_null`. -/
def _py_get_attr_or_null {σ : Type} (E : Env σ) (o : PyObject) (attr : Option CStr) :
    Act σ (Option PyObject) :=
  match attr with
  | none => pure none
  | some attr => call (Event.PyObject_GetAttrString o attr) (E.PyObject_GetAttrString o attr)

/-- The function `_py_init_bindings`.  `filename` is the value of `self->filename`,
which the caller has found not to be NULL. -/
def _py_init_bindings {σ : Type} (E : Env σ) (self : PythonDestDriver) (filename : CStr) :
    Act σ (Bool × PythonDestDriver) := do
  let module ← _py_do_import E self filename
  let self := { self with py := { self.py with module := module } }
  match module with
  | none => pure (false, self)
  | some m => do
    let queue ← _py_get_attr_or_null E m self.queue_func_name
    let self := { self with py := { self.py with queue := queue } }
    match queue with
    | none => pure (false, self)
    | some _ => do
      let init ← _py_get_attr_or_null E m self.init_func_name
      let self := { self with py := { self.py with init := init } }
      let deinit ← _py_get_attr_or_null E m self.deinit_func_name
      let self := { self with py := { self.py with deinit := deinit } }
      pure (true, self)

/-- The function `_py_free_bindings`. -/
def _py_free_bindings (self : PythonDestDriver) : PythonDestDriver :=
  { self with py := { module := none, init := none, queue := none, deinit := none } }

/-- The two assignments of `python_dd_init` before it takes the interpreter lock:
`log_template_options_init` on the template options, and `queue` for a queue function
name that is not set. -/
def configured {σ : Type} (E : Env σ) (self : PythonDestDriver) : PythonDestDriver :=
  if self.queue_func_name.isNone then
    { self with
      on_error := E.log_template_options_init self.on_error
      queue_func_name := some "queue".toList }
  else
    { self with on_error := E.log_template_options_init self.on_error }

/-- The function `python_dd_init`, with the driver as it leaves it. -/
def python_dd_init {σ : Type} (E : Env σ) (self : PythonDestDriver) :
    Act σ (Bool × PythonDestDriver) :=
  match self.filename with
  | none => do
    msg_error "Error initializing Python destination: no script specified!"
      [evt_tag_str "driver" self.id]
    pure (false, self)
  | some filename => do
    let ok ← call Event.log_dest_driver_init_method E.log_dest_driver_init_method
    if !ok then
      pure (false, self)
    else do
      let self := configured E self
      PyGILState_Ensure
      _py_perform_imports E self
      let b ← _py_init_bindings E self filename
      let self := b.2
      let ok ← if b.1 then _py_invoke_init E self else pure false
      if !ok then do
        PyGILState_Release
        pure (false, self)
      else do
        PyGILState_Release
        msg_verbose "Initializing Python destination"
          [evt_tag_str "driver" self.id, evt_tag_str "script" self.filename]
        let started ← call Event.log_threaded_dest_driver_start
          E.log_threaded_dest_driver_start
        pure (started, self)

/-- The function `python_dd_deinit`. -/
def python_dd_deinit {σ : Type} (E : Env σ) (self : PythonDestDriver) : Act σ Bool := do
  PyGILState_Ensure
  let _r ← _py_invoke_deinit E self
  PyGILState_Release
  call Event.log_threaded_dest_driver_deinit_method E.log_threaded_dest_driver_deinit_method

/-- The function `python_dd_free`, with the driver as its bindings are left before
the host releases the instance. -/
def python_dd_free {σ : Type} (self : PythonDestDriver) : Act σ PythonDestDriver := do
  emit Event.log_template_options_destroy
  PyGILState_Ensure
  let self := _py_free_bindings self
  PyGILState_Release
  if self.vp then
    emit Event.value_pairs_free
  emit Event.log_threaded_dest_driver_free
  pure self

/-! ## The parts of `python_dd_init` -/

/-- The part of `python_dd_init` between `PyGILState_Ensure` and `PyGILState_Release`:
the imports, the bindings, and the call of the init function.  The result tells
whether it goes on to signal the host, or to the label `fail`. -/
def python_dd_init_locked {σ : Type} (E : Env σ) (self : PythonDestDriver)
    (filename : CStr) : Act σ (Bool × PythonDestDriver) := do
  _py_perform_imports E self
  let b ← _py_init_bindings E self filename
  let ok ← if b.1 then _py_invoke_init E b.2 else pure false
  pure (ok, b.2)

/-! ## A sample world

A small interpreter and host, described by tables, for evaluating the driver on
concrete inputs.  Its state is the list of the module-name objects imported so far. -/

/-- The tables of the sample world. -/
structure Sample where
  strings : List (CStr × PyObject)
  modules : List (PyObject × PyObject)
  needs : List (PyObject × PyObject)
  attrs : List ((PyObject × CStr) × PyObject)
  texts : List (PyObject × CStr)
  raising : List (PyObject × PyExc)
  marshal : Bool × Option PyObject
  host_init : Bool
  host_start : Bool
  host_deinit : Bool

/-- The import of the sample world: a module listed in `needs` can be imported only
after the module it needs has been imported (which, say, extends the search path). -/
def Sample.load (w : Sample) (name : PyObject) (imported : List PyObject) :
    Option PyObject × List PyObject :=
  match w.needs.lookup name with
  | some dep =>
    if dep ∈ imported then (w.modules.lookup name, name :: imported) else (none, imported)
  | none =>
    match w.modules.lookup name with
    | some m => (some m, name :: imported)
    | none => (none, imported)

/-- The environment of the sample world. -/
def Sample.env (w : Sample) : Env (List PyObject) where
  ON_ERROR_DROP_MESSAGE := 1
  PyUnicode_FromString := fun s st => (w.strings.lookup s, st)
  PyImport_Import := fun name st => w.load name st
  PyObject_GetAttrString := fun o attr st => (w.attrs.lookup (o, attr), st)
  PyString_AsString := fun o _ => (w.texts.lookup o).getD []
  PyObject_CallFunctionObjArgs := fun func _ st =>
    match w.raising.lookup func with
    | some exc => (CallResult.raised exc, st)
    | none => (CallResult.returned 0, st)
  py_value_pairs_apply := fun _ _ _ st => (w.marshal, st)
  log_dest_driver_init_method := fun st => (w.host_init, st)
  log_template_options_init := fun flags => flags
  log_threaded_dest_driver_start := fun st => (w.host_start, st)
  log_threaded_dest_driver_deinit_method := fun st => (w.host_deinit, st)

/-- A script `script` that defines `queue` (object 10), `init` (11) and `deinit` (12);
`queue` raises an `Exception` with the message `boom`. -/
def boomWorld : Sample where
  strings := [("script".toList, 1), ("nonexistent_module".toList, 2)]
  modules := [(1, 5)]
  needs := []
  attrs := [((5, "queue".toList), 10), ((5, "init".toList), 11), ((5, "deinit".toList), 12),
    ((10, "__name__".toList), 20)]
  texts := [(20, "queue".toList)]
  raising := [(10, ⟨"Exception".toList, some "boom".toList⟩)]
  marshal := (true, some 30)
  host_init := true
  host_start := true
  host_deinit := true

/-- A driver configured for `script`, before start. -/
def sampleDriver : PythonDestDriver where
  id := some "d_python#0".toList
  filename := some "script".toList
  init_func_name := none
  queue_func_name := none
  deinit_func_name := none
  imports := []
  on_error := 0
  seq_num := 0
  vp := true
  py := ⟨none, none, none, none⟩

/-- The driver of `sampleDriver` as a successful start in `boomWorld` leaves it. -/
def readyDriver : PythonDestDriver :=
  (python_dd_init boomWorld.env sampleDriver []).ret.2

/-- The world of `boomWorld` with a `queue` that returns normally. -/
def quietWorld : Sample :=
  { boomWorld with raising := [] }

/-- The world of `quietWorld` with a marshalling that fails. -/
def failWorld : Sample :=
  { quietWorld with marshal := (false, some 30) }

/-- The world of `boomWorld` with a marshalling that fails. -/
def failBoomWorld : Sample :=
  { boomWorld with marshal := (false, some 30) }

/-- The driver of `readyDriver` with the drop-on-error flag set. -/
def dropDriver : PythonDestDriver :=
  { readyDriver with on_error := 1 }

/-- The world of `boomWorld` where `deinit` (object 12) raises as well. -/
def stopWorld : Sample :=
  { boomWorld with
    attrs := boomWorld.attrs ++ [((12, "__name__".toList), 21)]
    texts := boomWorld.texts ++ [(21, "deinit".toList)]
    raising := boomWorld.raising ++ [(12, ⟨"RuntimeError".toList, some "late".toList⟩)] }

/-- The driver that a start in `stopWorld` leaves when the deinit function is
configured as `deinit`. -/
def stopDriver : PythonDestDriver :=
  (python_dd_init stopWorld.env
    { sampleDriver with deinit_func_name := some "deinit".toList } []).ret.2

/-- The world of `quietWorld` where the module `script` can be imported only after
the module `sitepath` has been imported. -/
def pathWorld : Sample :=
  { quietWorld with
    strings := [("script".toList, 1), ("sitepath".toList, 3)]
    modules := [(1, 5), (3, 6)]
    needs := [(1, 3)] }

/-- The world of `quietWorld` with a script that defines only `deinit`, no `queue`. -/
def onlyDeinitWorld : Sample :=
  { quietWorld with attrs := [((5, "deinit".toList), 12)] }

/-- The driver of `sampleDriver` with the import list `nonexistent_module`. -/
def importsDriver : PythonDestDriver :=
  { sampleDriver with imports := ["nonexistent_module".toList] }

/-- The driver of `sampleDriver` with the import list `sitepath`. -/
def pathDriver : PythonDestDriver :=
  { sampleDriver with imports := ["sitepath".toList] }

/-- A driver whose script path has 1016 gchars, with the queue function `queue`. -/
def longDriver : PythonDestDriver :=
  { sampleDriver with
    filename := some (List.replicate 1016 'a')
    queue_func_name := some "queue".toList }

/-- The driver of `longDriver` with the queue function `other`. -/
def longDriverOther : PythonDestDriver :=
  { longDriver with queue_func_name := some "other".toList }

/-- The driver of `sampleDriver` with the queue function `queue`. -/
def queueDriver : PythonDestDriver :=
  { sampleDriver with queue_func_name := some "queue".toList }

/-- The driver of `sampleDriver` with the queue function `other`. -/
def otherDriver : PythonDestDriver :=
  { sampleDriver with queue_func_name := some "other".toList }

/-! ## Reading traces -/

/-- An event of the interpreter lock. -/
def isGil : Event → Bool
  | Event.PyGILState_Ensure => true
  | Event.PyGILState_Release => true
  | _ => false

/-- The number of times the interpreter lock is held after the events, starting from
`d`; `none` when some release comes with the lock not held. -/
def gilDepth : Nat → List Event → Option Nat
  | d, [] => some d
  | d, Event.PyGILState_Ensure :: es => gilDepth (d + 1) es
  | 0, Event.PyGILState_Release :: _ => none
  | d + 1, Event.PyGILState_Release :: es => gilDepth d es
  | d, _ :: es => gilDepth d es

/-- Strict pairing: every `PyGILState_Ensure` of the trace is followed by its own
`PyGILState_Release`, and no release comes without an acquisition before it. -/
def gilPaired (tr : List Event) : Prop :=
  gilDepth 0 tr = some 0

/-- The name whose import an event starts: each call of `_py_do_import` begins with
`PyUnicode_FromString` of the module name. -/
def importName : Event → Option CStr
  | Event.PyUnicode_FromString s => some s
  | _ => none

/-- Events that the calling helpers produce: calls into the interpreter and error
messages. -/
def isHelperEvent : Event → Bool
  | Event.PyUnicode_FromString _ => true
  | Event.PyImport_Import _ => true
  | Event.PyObject_GetAttrString _ _ => true
  | Event.PyObject_CallFunctionObjArgs _ _ => true
  | Event.msg_error _ _ => true
  | _ => false

/-! ## The claims in terms of the environment -/

/-- Whether a module imports: what the attempt to import `modname` yields in world
state `s`, the module or nothing. -/
def importResult {σ : Type} (E : Env σ) (modname : CStr) (s : σ) : Option PyObject :=
  match E.PyUnicode_FromString modname s with
  | (none, _) => none
  | (some name, s1) => (E.PyImport_Import name s1).1

/-- The world state that the attempt to import `modname` leaves. -/
def afterImport {σ : Type} (E : Env σ) (modname : CStr) (s : σ) : σ :=
  match E.PyUnicode_FromString modname s with
  | (none, s1) => s1
  | (some name, s1) => (E.PyImport_Import name s1).2

/-- The world state that the attempts to import the names, in order, leave. -/
def afterImports {σ : Type} (E : Env σ) : List CStr → σ → σ
  | [], s => s
  | n :: ns, s => afterImports E ns (afterImport E n s)

/-- The number of names of the list that fail to import, each attempted in the state
its predecessors left. -/
def failedImports {σ : Type} (E : Env σ) : List CStr → σ → Nat
  | [], _ => 0
  | n :: ns, s =>
    (if importResult E n s = none then 1 else 0) + failedImports E ns (afterImport E n s)

/-- The attribute of a module under an optional name: nothing is looked up when no
name is configured. -/
def attrOrNull {σ : Type} (E : Env σ) (o : PyObject) (attr : Option CStr) (s : σ) :
    Option PyObject × σ :=
  match attr with
  | none => (none, s)
  | some a => E.PyObject_GetAttrString o a s

/-- The conditions of a successful start, in the order in which they are met: a script
path is configured; the target module imports; the module has an attribute under the
configured queue function name, or under `queue` when none is configured; the init
callable is absent or returns without raising.  The value is the world state in which
the host is then signalled, `none` when some condition fails. -/
def readyState {σ : Type} (E : Env σ) (self : PythonDestDriver) (s : σ) : Option σ :=
  match self.filename with
  | none => none
  | some filename =>
    let s1 := afterImports E self.imports (E.log_dest_driver_init_method s).2
    match importResult E filename s1 with
    | none => none
    | some module =>
      match E.PyObject_GetAttrString module (self.queue_func_name.getD "queue".toList)
          (afterImport E filename s1) with
      | (none, _) => none
      | (some _, s3) =>
        let i := attrOrNull E module self.init_func_name s3
        let d := attrOrNull E module self.deinit_func_name i.2
        match i.1 with
        | none => some d.2
        | some init =>
          match E.PyObject_CallFunctionObjArgs init none d.2 with
          | (CallResult.returned _, s6) => some s6
          | (CallResult.raised _, _) => none


/-- A diagnostic event: a message sent with `msg_error` or `msg_verbose`. -/
def isDiagnostic : Event → Bool
  | Event.msg_error _ _ => true
  | Event.msg_verbose _ _ => true
  | _ => false

/-- An error event: a message sent with `msg_error`. -/
def isError : Event → Bool
  | Event.msg_error _ _ => true
  | _ => false

/-- An invocation of a callable of the script. -/
def isInvocation : Event → Bool
  | Event.PyObject_CallFunctionObjArgs _ _ => true
  | _ => false

/-! ## Basic facts about actions -/

section ActLemmas

variable {σ α β : Type}

@[simp]
theorem run_pure (a : α) (s : σ) : (pure a : Act σ α) s = ⟨a, s, []⟩ := rfl

@[simp]
theorem run_bind (m : Act σ α) (f : α → Act σ β) (s : σ) :
    (m >>= f) s = ⟨(f (m s).ret (m s).st).ret, (f (m s).ret (m s).st).st,
      (m s).trace ++ (f (m s).ret (m s).st).trace⟩ := rfl

@[simp]
theorem run_emit (e : Event) (s : σ) : (emit e : Act σ Unit) s = ⟨(), s, [e]⟩ := rfl

@[simp]
theorem run_call (e : Event) (f : σ → α × σ) (s : σ) :
    call e f s = ⟨(f s).1, (f s).2, [e]⟩ := rfl

@[simp]
theorem run_msg_error (desc : String) (tags : List EvtTag) (s : σ) :
    (msg_error desc tags : Act σ Unit) s = ⟨(), s, [Event.msg_error desc tags]⟩ := rfl

@[simp]
theorem run_msg_verbose (desc : String) (tags : List EvtTag) (s : σ) :
    (msg_verbose desc tags : Act σ Unit) s = ⟨(), s, [Event.msg_verbose desc tags]⟩ := rfl

@[simp]
theorem run_PyGILState_Ensure (s : σ) :
    (PyGILState_Ensure : Act σ Unit) s = ⟨(), s, [Event.PyGILState_Ensure]⟩ := rfl

@[simp]
theorem run_PyGILState_Release (s : σ) :
    (PyGILState_Release : Act σ Unit) s = ⟨(), s, [Event.PyGILState_Release]⟩ := rfl

end ActLemmas


/-! ## The worker: what `python_dd_insert` returns and logs -/

section Insert

variable {σ : Type}

/-- Whenever the marshalling did not fail under the drop-on-error flag, and a queue
callable is bound, `python_dd_insert` hands the marshalled value to the queue callable
and its result and diagnostics are those of that call. -/
theorem python_dd_insert_forwarded (E : Env σ) (self : PythonDestDriver) (msg : LogMessage)
    (s : σ) (q : PyObject) (hq : self.py.queue = some q)
    (hgo : (E.py_value_pairs_apply self.on_error self.seq_num msg s).1.1 = true
      ∨ self.on_error &&& E.ON_ERROR_DROP_MESSAGE = 0) :
    Event.PyObject_CallFunctionObjArgs q
        (E.py_value_pairs_apply self.on_error self.seq_num msg s).1.2
      ∈ (python_dd_insert E self msg s).trace
    ∧ (∀ v : PyObject,
        (E.PyObject_CallFunctionObjArgs q
          (E.py_value_pairs_apply self.on_error self.seq_num msg s).1.2
          (E.py_value_pairs_apply self.on_error self.seq_num msg s).2).1
          = CallResult.returned v →
        (python_dd_insert E self msg s).ret
            = some worker_insert_result_t.WORKER_INSERT_RESULT_SUCCESS
          ∧ (python_dd_insert E self msg s).trace.filter isDiagnostic = [])
    ∧ (∀ exc : PyExc,
        (E.PyObject_CallFunctionObjArgs q
          (E.py_value_pairs_apply self.on_error self.seq_num msg s).1.2
          (E.py_value_pairs_apply self.on_error self.seq_num msg s).2).1
          = CallResult.raised exc →
        (python_dd_insert E self msg s).ret
            = some worker_insert_result_t.WORKER_INSERT_RESULT_DROP
          ∧ (python_dd_insert E self msg s).trace.filter isDiagnostic =
            [Event.msg_error "Exception while calling a Python function"
              [evt_tag_str "driver" self.id,
               evt_tag_str "script" self.filename,
               evt_tag_str "function" (some
                 (match (E.PyObject_GetAttrString q "__name__".toList
                    (E.PyObject_CallFunctionObjArgs q
                      (E.py_value_pairs_apply self.on_error self.seq_num msg s).1.2
                      (E.py_value_pairs_apply self.on_error self.seq_num msg s).2).2) with
                  | (some n, s3) => (E.PyString_AsString n s3).take 255
                  | (none, _) => "<unknown>".toList)),
               evt_tag_str "exception" (some (_py_format_exception_text exc 256))]]) := by
  have hcond : ¬ ((E.py_value_pairs_apply self.on_error self.seq_num msg s).1.1 = false
      ∧ ¬ self.on_error &&& E.ON_ERROR_DROP_MESSAGE = 0) := by
    rcases hgo with h | h
    · simp [h]
    · simp [h]
  refine ⟨?_, ?_, ?_⟩
  · simp [python_dd_insert, _py_invoke_queue, _py_invoke_function, hq, hcond]
  · intro v hv
    simp [python_dd_insert, _py_invoke_queue, _py_invoke_function, hq, hcond, hv, isDiagnostic]
  · intro exc hx
    cases hn : (E.PyObject_GetAttrString q "__name__".toList
      (E.PyObject_CallFunctionObjArgs q
        (E.py_value_pairs_apply self.on_error self.seq_num msg s).1.2
        (E.py_value_pairs_apply self.on_error self.seq_num msg s).2).2) with
    | mk a s3 =>
      simp only [String.toList] at hn
      cases a <;>
        simp [python_dd_insert, _py_invoke_queue, _py_invoke_function, _py_get_callable_name,
          hq, hcond, hx, hn, isDiagnostic, g_strlcpy]

/-- With a failed marshalling and the drop-on-error flag set, `python_dd_insert` does the
marshalling under the lock and nothing else. -/
theorem python_dd_insert_dropped (E : Env σ) (self : PythonDestDriver)
    (msg : LogMessage) (s : σ)
    (hm : (E.py_value_pairs_apply self.on_error self.seq_num msg s).1.1 = false)
    (hd : self.on_error &&& E.ON_ERROR_DROP_MESSAGE ≠ 0) :
    (python_dd_insert E self msg s).ret
        = some worker_insert_result_t.WORKER_INSERT_RESULT_DROP
    ∧ (python_dd_insert E self msg s).trace
        = [Event.PyGILState_Ensure, Event.py_value_pairs_apply self.seq_num msg,
           Event.PyGILState_Release] := by
  simp [python_dd_insert, hm, hd]

end Insert

section InsertClaims

variable {σ : Type}

/-- C1: for every record whose marshalling succeeds, with the queue callable bound,
`python_dd_insert` returns Success and logs nothing when the queue callable returns,
and returns Drop with exactly one diagnostic event when it raises; that event is the
error message carrying the name of the queue callable (its `__name__` cut to 255
gchars, or the placeholder) and the text of the exception. -/
theorem python_dd_insert_queue_outcome (E : Env σ) (self : PythonDestDriver)
    (msg : LogMessage) (s : σ) (q : PyObject) (hq : self.py.queue = some q)
    (hm : (E.py_value_pairs_apply self.on_error self.seq_num msg s).1.1 = true) :
    (∀ v : PyObject,
        (E.PyObject_CallFunctionObjArgs q
          (E.py_value_pairs_apply self.on_error self.seq_num msg s).1.2
          (E.py_value_pairs_apply self.on_error self.seq_num msg s).2).1
          = CallResult.returned v →
        (python_dd_insert E self msg s).ret
            = some worker_insert_result_t.WORKER_INSERT_RESULT_SUCCESS
          ∧ (python_dd_insert E self msg s).trace.filter isDiagnostic = [])
    ∧ (∀ exc : PyExc,
        (E.PyObject_CallFunctionObjArgs q
          (E.py_value_pairs_apply self.on_error self.seq_num msg s).1.2
          (E.py_value_pairs_apply self.on_error self.seq_num msg s).2).1
          = CallResult.raised exc →
        (python_dd_insert E self msg s).ret
            = some worker_insert_result_t.WORKER_INSERT_RESULT_DROP
          ∧ (python_dd_insert E self msg s).trace.filter isDiagnostic =
            [Event.msg_error "Exception while calling a Python function"
              [evt_tag_str "driver" self.id,
               evt_tag_str "script" self.filename,
               evt_tag_str "function" (some
                 (match (E.PyObject_GetAttrString q "__name__".toList
                    (E.PyObject_CallFunctionObjArgs q
                      (E.py_value_pairs_apply self.on_error self.seq_num msg s).1.2
                      (E.py_value_pairs_apply self.on_error self.seq_num msg s).2).2) with
                  | (some n, s3) => (E.PyString_AsString n s3).take 255
                  | (none, _) => "<unknown>".toList)),
               evt_tag_str "exception" (some (_py_format_exception_text exc 256))]]) :=
  (python_dd_insert_forwarded E self msg s q hq (Or.inl hm)).2

/-- The scenario of C1: `queue` raises an `Exception` with the message `boom`, the
record is `a = b`; a `queue` that returns is the other half. -/
theorem python_dd_insert_queue_outcome_witness :
    readyDriver.py.queue = some 10
    ∧ (boomWorld.env.py_value_pairs_apply 0 0 [("a".toList, "b".toList)] []).1.1 = true
    ∧ (python_dd_insert quietWorld.env readyDriver [("a".toList, "b".toList)] []).ret
        = some worker_insert_result_t.WORKER_INSERT_RESULT_SUCCESS
    ∧ (python_dd_insert quietWorld.env readyDriver
        [("a".toList, "b".toList)] []).trace.filter isDiagnostic = []
    ∧ (python_dd_insert boomWorld.env readyDriver [("a".toList, "b".toList)] []).ret
        = some worker_insert_result_t.WORKER_INSERT_RESULT_DROP
    ∧ (python_dd_insert boomWorld.env readyDriver
        [("a".toList, "b".toList)] []).trace.filter isDiagnostic =
        [Event.msg_error "Exception while calling a Python function"
          [evt_tag_str "driver" (some "d_python#0".toList),
           evt_tag_str "script" (some "script".toList),
           evt_tag_str "function" (some "queue".toList),
           evt_tag_str "exception" (some "Exception: boom".toList)]]
    ∧ "boom".toList <:+: "Exception: boom".toList :=
  ⟨rfl, rfl,
    ((python_dd_insert_queue_outcome quietWorld.env readyDriver
      [("a".toList, "b".toList)] [] 10 rfl rfl).1 0 rfl).1,
    ((python_dd_insert_queue_outcome quietWorld.env readyDriver
      [("a".toList, "b".toList)] [] 10 rfl rfl).1 0 rfl).2,
    ((python_dd_insert_queue_outcome boomWorld.env readyDriver
      [("a".toList, "b".toList)] [] 10 rfl rfl).2
        ⟨"Exception".toList, some "boom".toList⟩ rfl).1,
    ((python_dd_insert_queue_outcome boomWorld.env readyDriver
      [("a".toList, "b".toList)] [] 10 rfl rfl).2
        ⟨"Exception".toList, some "boom".toList⟩ rfl).2,
    by decide⟩

/-- C2, as the code has it: when the marshalling fails and the drop-on-error flag is
not set, `python_dd_insert` still hands the marshalled value to the queue callable, and
the result is that of the call: Success when it returns, Drop with one error event
when it raises. -/
theorem python_dd_insert_marshal_failure_forwarded (E : Env σ) (self : PythonDestDriver)
    (msg : LogMessage) (s : σ) (q : PyObject) (hq : self.py.queue = some q)
    (_hm : (E.py_value_pairs_apply self.on_error self.seq_num msg s).1.1 = false)
    (hd : self.on_error &&& E.ON_ERROR_DROP_MESSAGE = 0) :
    Event.PyObject_CallFunctionObjArgs q
        (E.py_value_pairs_apply self.on_error self.seq_num msg s).1.2
      ∈ (python_dd_insert E self msg s).trace
    ∧ (∀ v : PyObject,
        (E.PyObject_CallFunctionObjArgs q
          (E.py_value_pairs_apply self.on_error self.seq_num msg s).1.2
          (E.py_value_pairs_apply self.on_error self.seq_num msg s).2).1
          = CallResult.returned v →
        (python_dd_insert E self msg s).ret
          = some worker_insert_result_t.WORKER_INSERT_RESULT_SUCCESS)
    ∧ (∀ exc : PyExc,
        (E.PyObject_CallFunctionObjArgs q
          (E.py_value_pairs_apply self.on_error self.seq_num msg s).1.2
          (E.py_value_pairs_apply self.on_error self.seq_num msg s).2).1
          = CallResult.raised exc →
        (python_dd_insert E self msg s).ret
            = some worker_insert_result_t.WORKER_INSERT_RESULT_DROP
          ∧ ((python_dd_insert E self msg s).trace.filter isError).length = 1) := by
  have h := python_dd_insert_forwarded E self msg s q hq (Or.inr hd)
  refine ⟨h.1, fun v hv => (h.2.1 v hv).1, fun exc hx => ⟨(h.2.2 exc hx).1, ?_⟩⟩
  have hdiag := (h.2.2 exc hx).2
  have hsub : ∀ l : List Event, (l.filter isDiagnostic).filter isError = l.filter isError := by
    intro l
    rw [List.filter_filter]
    congr 1
    funext e
    cases e <;> rfl
  rw [← hsub, hdiag]
  rfl

/-- C2 as stated fails: in `failWorld` the marshalling fails, the driver has no error
flag set, `queue` returns, and `python_dd_insert` returns Success. -/
theorem python_dd_insert_marshal_failure_success :
    (failWorld.env.py_value_pairs_apply readyDriver.on_error readyDriver.seq_num
        [("a".toList, "b".toList)] []).1.1 = false
    ∧ readyDriver.on_error &&& failWorld.env.ON_ERROR_DROP_MESSAGE = 0
    ∧ (python_dd_insert failWorld.env readyDriver [("a".toList, "b".toList)] []).ret
        = some worker_insert_result_t.WORKER_INSERT_RESULT_SUCCESS := by
  decide

/-- The amended C2 at `failWorld` (queue returns) and at `failBoomWorld` (queue
raises). -/
theorem python_dd_insert_marshal_failure_forwarded_witness :
    Event.PyObject_CallFunctionObjArgs 10 (some 30)
      ∈ (python_dd_insert failWorld.env readyDriver [("a".toList, "b".toList)] []).trace
    ∧ (python_dd_insert failBoomWorld.env readyDriver [("a".toList, "b".toList)] []).ret
        = some worker_insert_result_t.WORKER_INSERT_RESULT_DROP
    ∧ ((python_dd_insert failBoomWorld.env readyDriver
        [("a".toList, "b".toList)] []).trace.filter isError).length = 1 :=
  ⟨(python_dd_insert_marshal_failure_forwarded failWorld.env readyDriver
      [("a".toList, "b".toList)] [] 10 rfl rfl rfl).1,
    ((python_dd_insert_marshal_failure_forwarded failBoomWorld.env readyDriver
      [("a".toList, "b".toList)] [] 10 rfl rfl rfl).2.2
        ⟨"Exception".toList, some "boom".toList⟩ rfl).1,
    ((python_dd_insert_marshal_failure_forwarded failBoomWorld.env readyDriver
      [("a".toList, "b".toList)] [] 10 rfl rfl rfl).2.2
        ⟨"Exception".toList, some "boom".toList⟩ rfl).2⟩

/-- C3: for every record whose marshalling fails while the drop-on-error flag is set,
`python_dd_insert` returns Drop; between taking and releasing the interpreter lock it
does nothing but the marshalling, so no callable is invoked and no diagnostic is
emitted. -/
theorem python_dd_insert_drop_on_error (E : Env σ) (self : PythonDestDriver)
    (msg : LogMessage) (s : σ)
    (hm : (E.py_value_pairs_apply self.on_error self.seq_num msg s).1.1 = false)
    (hd : self.on_error &&& E.ON_ERROR_DROP_MESSAGE ≠ 0) :
    (python_dd_insert E self msg s).ret
        = some worker_insert_result_t.WORKER_INSERT_RESULT_DROP
    ∧ (python_dd_insert E self msg s).trace
        = [Event.PyGILState_Ensure, Event.py_value_pairs_apply self.seq_num msg,
           Event.PyGILState_Release]
    ∧ (python_dd_insert E self msg s).trace.filter isInvocation = []
    ∧ (python_dd_insert E self msg s).trace.filter isDiagnostic = [] := by
  have h := python_dd_insert_dropped E self msg s hm hd
  refine ⟨h.1, h.2, ?_, ?_⟩ <;> rw [h.2] <;> rfl

/-- C3 at `failBoomWorld` with the drop-on-error flag set: `queue` would raise, and is
never called. -/
theorem python_dd_insert_drop_on_error_witness :
    (failBoomWorld.env.py_value_pairs_apply dropDriver.on_error dropDriver.seq_num
        [("a".toList, "b".toList)] []).1.1 = false
    ∧ dropDriver.on_error &&& failBoomWorld.env.ON_ERROR_DROP_MESSAGE ≠ 0
    ∧ (python_dd_insert failBoomWorld.env dropDriver [("a".toList, "b".toList)] []).ret
        = some worker_insert_result_t.WORKER_INSERT_RESULT_DROP
    ∧ (python_dd_insert failBoomWorld.env dropDriver [("a".toList, "b".toList)] []).trace
        = [Event.PyGILState_Ensure, Event.py_value_pairs_apply 0 [("a".toList, "b".toList)],
           Event.PyGILState_Release] :=
  ⟨rfl, by decide,
    (python_dd_insert_drop_on_error failBoomWorld.env dropDriver
      [("a".toList, "b".toList)] [] rfl (by decide)).1,
    (python_dd_insert_drop_on_error failBoomWorld.env dropDriver
      [("a".toList, "b".toList)] [] rfl (by decide)).2.1⟩

end InsertClaims


/-! ## The calling helpers -/

section Helpers

variable {σ : Type}

theorem callable_name_trace (E : Env σ) (c : PyObject) (n : Nat) (s : σ) :
    (_py_get_callable_name E c n s).trace
      = [Event.PyObject_GetAttrString c "__name__".toList] := by
  simp only [_py_get_callable_name, run_bind, run_call]
  cases (E.PyObject_GetAttrString c "__name__".toList s).1 <;> simp

theorem invoke_function_helper (E : Env σ) (self : PythonDestDriver) (f : PyObject)
    (arg : Option PyObject) (s : σ) :
    ∀ e ∈ (_py_invoke_function E self f arg s).trace, isHelperEvent e = true := by
  simp only [_py_invoke_function, run_bind, run_call]
  cases (E.PyObject_CallFunctionObjArgs f arg s).1 <;>
    simp [callable_name_trace, isHelperEvent]

theorem invoke_function_ret (E : Env σ) (self : PythonDestDriver) (f : PyObject)
    (arg : Option PyObject) (s : σ) :
    (_py_invoke_function E self f arg s).ret
      = match (E.PyObject_CallFunctionObjArgs f arg s).1 with
        | CallResult.returned _ => true
        | CallResult.raised _ => false := by
  simp only [_py_invoke_function, run_bind, run_call]
  cases (E.PyObject_CallFunctionObjArgs f arg s).1 <;> simp

theorem invoke_function_st_returned (E : Env σ) (self : PythonDestDriver) (f : PyObject)
    (arg : Option PyObject) (s : σ) (v : PyObject)
    (h : (E.PyObject_CallFunctionObjArgs f arg s).1 = CallResult.returned v) :
    (_py_invoke_function E self f arg s).st = (E.PyObject_CallFunctionObjArgs f arg s).2 := by
  simp [_py_invoke_function, h]

theorem invoke_function_errors (E : Env σ) (self : PythonDestDriver) (f : PyObject)
    (arg : Option PyObject) (s : σ) :
    ((_py_invoke_function E self f arg s).trace.filter isError).length
      = match (E.PyObject_CallFunctionObjArgs f arg s).1 with
        | CallResult.returned _ => 0
        | CallResult.raised _ => 1 := by
  simp only [_py_invoke_function, run_bind, run_call]
  cases (E.PyObject_CallFunctionObjArgs f arg s).1 <;>
    simp [callable_name_trace, isError]

theorem invoke_function_calls (E : Env σ) (self : PythonDestDriver) (f : PyObject)
    (arg : Option PyObject) (s : σ) :
    (_py_invoke_function E self f arg s).trace.filter isInvocation
      = [Event.PyObject_CallFunctionObjArgs f arg] := by
  simp only [_py_invoke_function, run_bind, run_call]
  cases (E.PyObject_CallFunctionObjArgs f arg s).1 <;>
    simp [callable_name_trace, isInvocation]

theorem do_import_ret (E : Env σ) (self : PythonDestDriver) (n : CStr) (s : σ) :
    (_py_do_import E self n s).ret = importResult E n s := by
  rcases h : E.PyUnicode_FromString n s with ⟨a, s1⟩
  cases a with
  | none => simp [_py_do_import, h, importResult]
  | some o =>
    rcases h2 : E.PyImport_Import o s1 with ⟨b, s2⟩
    cases b <;> simp [_py_do_import, h, h2, importResult]

theorem do_import_st (E : Env σ) (self : PythonDestDriver) (n : CStr) (s : σ) :
    (_py_do_import E self n s).st = afterImport E n s := by
  rcases h : E.PyUnicode_FromString n s with ⟨a, s1⟩
  cases a with
  | none => simp [_py_do_import, h, afterImport]
  | some o =>
    rcases h2 : E.PyImport_Import o s1 with ⟨b, s2⟩
    cases b <;> simp [_py_do_import, h, h2, afterImport]

theorem do_import_helper (E : Env σ) (self : PythonDestDriver) (n : CStr) (s : σ) :
    ∀ e ∈ (_py_do_import E self n s).trace, isHelperEvent e = true := by
  rcases h : E.PyUnicode_FromString n s with ⟨a, s1⟩
  cases a with
  | none => simp [_py_do_import, h, isHelperEvent]
  | some o =>
    rcases h2 : E.PyImport_Import o s1 with ⟨b, s2⟩
    cases b <;> simp [_py_do_import, h, h2, isHelperEvent]

theorem do_import_names (E : Env σ) (self : PythonDestDriver) (n : CStr) (s : σ) :
    (_py_do_import E self n s).trace.filterMap importName = [n] := by
  rcases h : E.PyUnicode_FromString n s with ⟨a, s1⟩
  cases a with
  | none => simp [_py_do_import, h, importName]
  | some o =>
    rcases h2 : E.PyImport_Import o s1 with ⟨b, s2⟩
    cases b <;> simp [_py_do_import, h, h2, importName]

theorem do_import_errors (E : Env σ) (self : PythonDestDriver) (n : CStr) (s : σ) :
    ((_py_do_import E self n s).trace.filter isError).length
      = if importResult E n s = none then 1 else 0 := by
  rcases h : E.PyUnicode_FromString n s with ⟨a, s1⟩
  cases a with
  | none => simp [_py_do_import, h, importResult, isError]
  | some o =>
    rcases h2 : E.PyImport_Import o s1 with ⟨b, s2⟩
    cases b <;> simp [_py_do_import, h, h2, importResult, isError]

theorem do_import_calls (E : Env σ) (self : PythonDestDriver) (n : CStr) (s : σ) :
    (_py_do_import E self n s).trace.filter isInvocation = [] := by
  rcases h : E.PyUnicode_FromString n s with ⟨a, s1⟩
  cases a with
  | none => simp [_py_do_import, h, isInvocation]
  | some o =>
    rcases h2 : E.PyImport_Import o s1 with ⟨b, s2⟩
    cases b <;> simp [_py_do_import, h, h2, isInvocation]

theorem foreach_import_run (E : Env σ) (self : PythonDestDriver) (n : CStr) (s : σ) :
    _foreach_import E self n s
      = ⟨(), (_py_do_import E self n s).st, (_py_do_import E self n s).trace⟩ := by
  simp [_foreach_import]

theorem foreach_cons (E : Env σ) (self : PythonDestDriver) (n : CStr) (ns : List CStr)
    (s : σ) :
    g_list_foreach (n :: ns) (_foreach_import E self) s
      = ⟨(), (g_list_foreach ns (_foreach_import E self) (afterImport E n s)).st,
          (_py_do_import E self n s).trace
            ++ (g_list_foreach ns (_foreach_import E self) (afterImport E n s)).trace⟩ := by
  simp [g_list_foreach, foreach_import_run, do_import_st]

theorem perform_imports_st (E : Env σ) (self : PythonDestDriver) (s : σ) :
    (_py_perform_imports E self s).st = afterImports E self.imports s := by
  unfold _py_perform_imports
  induction self.imports generalizing s with
  | nil => simp [g_list_foreach, afterImports]
  | cons n ns ih => simp [foreach_cons, afterImports, ih]

theorem perform_imports_helper (E : Env σ) (self : PythonDestDriver) (s : σ) :
    ∀ e ∈ (_py_perform_imports E self s).trace, isHelperEvent e = true := by
  unfold _py_perform_imports
  induction self.imports generalizing s with
  | nil => simp [g_list_foreach]
  | cons n ns ih =>
    intro e he
    simp only [foreach_cons, List.mem_append] at he
    rcases he with he | he
    · exact do_import_helper E self n s e he
    · exact ih _ e he

theorem perform_imports_names (E : Env σ) (self : PythonDestDriver) (s : σ) :
    (_py_perform_imports E self s).trace.filterMap importName = self.imports := by
  unfold _py_perform_imports
  induction self.imports generalizing s with
  | nil => simp [g_list_foreach]
  | cons n ns ih => simp [foreach_cons, List.filterMap_append, do_import_names, ih]

theorem perform_imports_errors (E : Env σ) (self : PythonDestDriver) (s : σ) :
    ((_py_perform_imports E self s).trace.filter isError).length
      = failedImports E self.imports s := by
  unfold _py_perform_imports
  induction self.imports generalizing s with
  | nil => simp [g_list_foreach, failedImports]
  | cons n ns ih =>
    simp only [foreach_cons, List.filter_append, List.length_append, do_import_errors, ih,
      failedImports]

theorem perform_imports_calls (E : Env σ) (self : PythonDestDriver) (s : σ) :
    (_py_perform_imports E self s).trace.filter isInvocation = [] := by
  unfold _py_perform_imports
  induction self.imports generalizing s with
  | nil => simp [g_list_foreach]
  | cons n ns ih => simp [foreach_cons, do_import_calls, ih]

theorem get_attr_run (E : Env σ) (o : PyObject) (attr : Option CStr) (s : σ) :
    (_py_get_attr_or_null E o attr s).ret = (attrOrNull E o attr s).1
    ∧ (_py_get_attr_or_null E o attr s).st = (attrOrNull E o attr s).2 := by
  cases attr <;> simp [_py_get_attr_or_null, attrOrNull]

theorem get_attr_helper (E : Env σ) (o : PyObject) (attr : Option CStr) (s : σ) :
    ∀ e ∈ (_py_get_attr_or_null E o attr s).trace, isHelperEvent e = true := by
  cases attr <;> simp [_py_get_attr_or_null, isHelperEvent]

theorem get_attr_names (E : Env σ) (o : PyObject) (attr : Option CStr) (s : σ) :
    (_py_get_attr_or_null E o attr s).trace.filterMap importName = [] := by
  cases attr <;> simp [_py_get_attr_or_null, importName]

theorem helper_not_gil (l : List Event) (h : ∀ e ∈ l, isHelperEvent e = true) :
    l.filter isGil = [] := by
  rw [List.filter_eq_nil_iff]
  intro e he
  have := h e he
  cases e <;> simp_all [isHelperEvent, isGil]

theorem helper_not_start (l : List Event) (h : ∀ e ∈ l, isHelperEvent e = true) :
    Event.log_threaded_dest_driver_start ∉ l := by
  intro hmem
  have := h _ hmem
  simp [isHelperEvent] at this

theorem gilDepth_filter (l : List Event) (d : Nat) :
    gilDepth d l = gilDepth d (l.filter isGil) := by
  induction l generalizing d with
  | nil => rfl
  | cons e es ih =>
    cases e <;> cases d <;> simp [gilDepth, isGil, List.filter, ih]

end Helpers


section Start

variable {σ : Type}

theorem invoke_init_helper (E : Env σ) (self : PythonDestDriver) (s : σ) :
    ∀ e ∈ (_py_invoke_init E self s).trace, isHelperEvent e = true := by
  unfold _py_invoke_init
  cases self.py.init with
  | none => simp
  | some i => exact invoke_function_helper E self i none s

theorem invoke_deinit_helper (E : Env σ) (self : PythonDestDriver) (s : σ) :
    ∀ e ∈ (_py_invoke_deinit E self s).trace, isHelperEvent e = true := by
  unfold _py_invoke_deinit
  cases self.py.deinit with
  | none => simp
  | some i => exact invoke_function_helper E self i none s

theorem init_bindings_helper (E : Env σ) (self : PythonDestDriver) (f : CStr) (s : σ) :
    ∀ e ∈ (_py_init_bindings E self f s).trace, isHelperEvent e = true := by
  intro e he
  simp only [_py_init_bindings, run_bind] at he
  rcases List.mem_append.1 he with h | h
  · exact do_import_helper E self f s e h
  · revert h
    cases (_py_do_import E self f s).ret with
    | none => simp
    | some m =>
      simp only [run_bind]
      intro h
      rcases List.mem_append.1 h with h | h
      · exact get_attr_helper E m _ _ e h
      · revert h
        cases (_py_get_attr_or_null E m self.queue_func_name (_py_do_import E self f s).st).ret with
        | none => simp
        | some q =>
          simp only [run_bind, run_pure, List.append_nil]
          intro h
          rcases List.mem_append.1 h with h | h
          · exact get_attr_helper E m _ _ e h
          · exact get_attr_helper E m _ _ e h

theorem gilPaired_bracket (a b c : List Event) (ha : a.filter isGil = [])
    (hb : b.filter isGil = []) (hc : c.filter isGil = []) :
    gilPaired (a ++ Event.PyGILState_Ensure :: (b ++ Event.PyGILState_Release :: c)) := by
  unfold gilPaired
  rw [gilDepth_filter]
  simp [List.filter_append, List.filter_cons, ha, hb, hc, isGil, gilDepth]

theorem gilPaired_plain (a : List Event) (ha : a.filter isGil = []) : gilPaired a := by
  unfold gilPaired
  rw [gilDepth_filter, ha]
  rfl

theorem python_dd_init_run (E : Env σ) (self : PythonDestDriver) (s : σ) (f : CStr)
    (hf : self.filename = some f) (hh : (E.log_dest_driver_init_method s).1 = true) :
    python_dd_init E self s
      = if (python_dd_init_locked E (configured E self) f
            (E.log_dest_driver_init_method s).2).ret.1 = true then
          ⟨((E.log_threaded_dest_driver_start
              (python_dd_init_locked E (configured E self) f
                (E.log_dest_driver_init_method s).2).st).1,
            (python_dd_init_locked E (configured E self) f
              (E.log_dest_driver_init_method s).2).ret.2),
           (E.log_threaded_dest_driver_start
              (python_dd_init_locked E (configured E self) f
                (E.log_dest_driver_init_method s).2).st).2,
           Event.log_dest_driver_init_method :: Event.PyGILState_Ensure ::
             ((python_dd_init_locked E (configured E self) f
                (E.log_dest_driver_init_method s).2).trace
              ++ [Event.PyGILState_Release,
                  Event.msg_verbose "Initializing Python destination"
                    [evt_tag_str "driver" (python_dd_init_locked E (configured E self) f
                        (E.log_dest_driver_init_method s).2).ret.2.id,
                     evt_tag_str "script" (python_dd_init_locked E (configured E self) f
                        (E.log_dest_driver_init_method s).2).ret.2.filename],
                  Event.log_threaded_dest_driver_start])⟩
        else
          ⟨(false, (python_dd_init_locked E (configured E self) f
              (E.log_dest_driver_init_method s).2).ret.2),
           (python_dd_init_locked E (configured E self) f
              (E.log_dest_driver_init_method s).2).st,
           Event.log_dest_driver_init_method :: Event.PyGILState_Ensure ::
             ((python_dd_init_locked E (configured E self) f
                (E.log_dest_driver_init_method s).2).trace
              ++ [Event.PyGILState_Release])⟩ := by
  simp only [python_dd_init, python_dd_init_locked, hf, run_bind, run_call, hh, run_pure,
    Bool.not_true, Bool.false_eq_true, if_false, run_PyGILState_Ensure]
  generalize _py_perform_imports E (configured E self) (E.log_dest_driver_init_method s).2 = I
  generalize _py_init_bindings E (configured E self) f I.st = B
  cases hb : B.ret.1
  · simp
  · simp only [if_true, run_bind, run_pure]
    generalize _py_invoke_init E B.ret.2 B.st = V
    cases hv : V.ret <;> simp [hv]

@[simp]
theorem configured_imports (E : Env σ) (self : PythonDestDriver) :
    (configured E self).imports = self.imports := by
  unfold configured
  split <;> rfl

@[simp]
theorem configured_init_func_name (E : Env σ) (self : PythonDestDriver) :
    (configured E self).init_func_name = self.init_func_name := by
  unfold configured
  split <;> rfl

@[simp]
theorem configured_deinit_func_name (E : Env σ) (self : PythonDestDriver) :
    (configured E self).deinit_func_name = self.deinit_func_name := by
  unfold configured
  split <;> rfl

@[simp]
theorem configured_queue_func_name (E : Env σ) (self : PythonDestDriver) :
    (configured E self).queue_func_name
      = some (self.queue_func_name.getD "queue".toList) := by
  unfold configured
  cases h : self.queue_func_name <;> simp

@[simp]
theorem configured_id (E : Env σ) (self : PythonDestDriver) :
    (configured E self).id = self.id := by
  unfold configured
  split <;> rfl

@[simp]
theorem configured_filename (E : Env σ) (self : PythonDestDriver) :
    (configured E self).filename = self.filename := by
  unfold configured
  split <;> rfl

theorem get_attr_ret (E : Env σ) (o : PyObject) (attr : Option CStr) (s : σ) :
    (_py_get_attr_or_null E o attr s).ret = (attrOrNull E o attr s).1 :=
  (get_attr_run E o attr s).1

theorem get_attr_st (E : Env σ) (o : PyObject) (attr : Option CStr) (s : σ) :
    (_py_get_attr_or_null E o attr s).st = (attrOrNull E o attr s).2 :=
  (get_attr_run E o attr s).2

theorem attrOrNull_some (E : Env σ) (o : PyObject) (a : CStr) (s : σ) :
    attrOrNull E o (some a) s = E.PyObject_GetAttrString o a s := rfl

theorem locked_ready (E : Env σ) (self : PythonDestDriver) (s : σ) (f : CStr)
    (hf : self.filename = some f) :
    (if (python_dd_init_locked E (configured E self) f
          (E.log_dest_driver_init_method s).2).ret.1 = true
      then some (python_dd_init_locked E (configured E self) f
          (E.log_dest_driver_init_method s).2).st
      else none) = readyState E self s := by
  simp only [python_dd_init_locked, readyState, hf, run_bind, run_pure, perform_imports_st,
    configured_imports, _py_init_bindings, do_import_ret, do_import_st]
  generalize afterImports E self.imports (E.log_dest_driver_init_method s).2 = s1
  cases hm : importResult E f s1 with
  | none => simp
  | some m =>
    simp only [run_bind, run_pure, configured_queue_func_name, get_attr_ret, get_attr_st,
      configured_init_func_name, configured_deinit_func_name, attrOrNull_some]
    rcases hq : E.PyObject_GetAttrString m (self.queue_func_name.getD "queue".toList)
      (afterImport E f s1) with ⟨q, s3⟩
    cases q with
    | none => simp
    | some q =>
      simp only [run_bind, run_pure, get_attr_ret, get_attr_st]
      generalize attrOrNull E m self.init_func_name s3 = i
      generalize attrOrNull E m self.deinit_func_name i.2 = d
      rcases i with ⟨i, si⟩
      cases i with
      | none => simp [_py_invoke_init]
      | some i =>
        rcases hc : E.PyObject_CallFunctionObjArgs i none d.2 with ⟨r, s6⟩
        cases r with
        | returned v =>
          simp [_py_invoke_init, invoke_function_ret, hc,
            invoke_function_st_returned E _ i none d.2 v (by rw [hc])]
        | raised exc =>
          simp [_py_invoke_init, invoke_function_ret, hc]

theorem invoke_function_names (E : Env σ) (self : PythonDestDriver) (f : PyObject)
    (arg : Option PyObject) (s : σ) :
    (_py_invoke_function E self f arg s).trace.filterMap importName = [] := by
  simp only [_py_invoke_function, run_bind, run_call]
  cases (E.PyObject_CallFunctionObjArgs f arg s).1 <;>
    simp [callable_name_trace, importName]

theorem invoke_init_names (E : Env σ) (self : PythonDestDriver) (s : σ) :
    (_py_invoke_init E self s).trace.filterMap importName = [] := by
  unfold _py_invoke_init
  cases self.py.init with
  | none => simp
  | some i => exact invoke_function_names E self i none s

theorem init_bindings_names (E : Env σ) (self : PythonDestDriver) (f : CStr) (s : σ) :
    (_py_init_bindings E self f s).trace.filterMap importName = [f] := by
  simp only [_py_init_bindings, run_bind, List.filterMap_append, do_import_names]
  cases (_py_do_import E self f s).ret with
  | none => simp
  | some m =>
    simp only [run_bind, List.filterMap_append, get_attr_names]
    cases (_py_get_attr_or_null E m self.queue_func_name (_py_do_import E self f s).st).ret with
    | none => simp
    | some q => simp [get_attr_names]

theorem locked_trace (E : Env σ) (self : PythonDestDriver) (f : CStr) (s : σ) :
    (python_dd_init_locked E self f s).trace
      = (_py_perform_imports E self s).trace
        ++ ((_py_init_bindings E self f (_py_perform_imports E self s).st).trace
        ++ (if (_py_init_bindings E self f (_py_perform_imports E self s).st).ret.1 = true
            then (_py_invoke_init E
              (_py_init_bindings E self f (_py_perform_imports E self s).st).ret.2
              (_py_init_bindings E self f (_py_perform_imports E self s).st).st).trace
            else [])) := by
  simp only [python_dd_init_locked, run_bind, run_pure]
  cases (_py_init_bindings E self f (_py_perform_imports E self s).st).ret.1 <;> simp

theorem locked_helper (E : Env σ) (self : PythonDestDriver) (f : CStr) (s : σ) :
    ∀ e ∈ (python_dd_init_locked E self f s).trace, isHelperEvent e = true := by
  intro e he
  rw [locked_trace] at he
  rcases List.mem_append.1 he with h | h
  · exact perform_imports_helper E self s e h
  · rcases List.mem_append.1 h with h | h
    · exact init_bindings_helper E self f _ e h
    · revert h
      cases (_py_init_bindings E self f (_py_perform_imports E self s).st).ret.1 with
      | false => simp
      | true =>
        simp only [if_true]
        exact invoke_init_helper E _ _ e

theorem locked_split (E : Env σ) (self : PythonDestDriver) (f : CStr) (s : σ) :
    ∃ rest, (python_dd_init_locked E self f s).trace
        = (_py_perform_imports E self s).trace ++ rest
      ∧ rest.filterMap importName = [f] := by
  refine ⟨_, locked_trace E self f s, ?_⟩
  simp only [List.filterMap_append, init_bindings_names]
  cases (_py_init_bindings E self f (_py_perform_imports E self s).st).ret.1 with
  | false => simp
  | true => simp [invoke_init_names]

end Start


/-! ## Start -/

section StartClaims

variable {σ : Type}

/-- The result and the signal of `python_dd_init` in terms of `readyState`. -/
theorem python_dd_init_ready (E : Env σ) (self : PythonDestDriver) (s : σ)
    (hhost : (E.log_dest_driver_init_method s).1 = true) :
    (Event.log_threaded_dest_driver_start ∈ (python_dd_init E self s).trace
        ↔ (readyState E self s).isSome = true)
    ∧ (∀ sx, readyState E self s = some sx →
        (python_dd_init E self s).ret.1 = (E.log_threaded_dest_driver_start sx).1)
    ∧ (readyState E self s = none →
        (python_dd_init E self s).ret.1 = false
        ∧ Event.log_threaded_dest_driver_start ∉ (python_dd_init E self s).trace) := by
  cases hf : self.filename with
  | none => simp [readyState, python_dd_init, hf]
  | some f =>
    have hL := locked_ready E self s f hf
    have hH := locked_helper E (configured E self) f (E.log_dest_driver_init_method s).2
    have hN := helper_not_start _ hH
    rw [python_dd_init_run E self s f hf hhost]
    cases hb : (python_dd_init_locked E (configured E self) f
        (E.log_dest_driver_init_method s).2).ret.1 with
    | false =>
      rw [hb] at hL
      simp only [Bool.false_eq_true, if_false] at hL
      simp [← hL, hN]
    | true =>
      rw [hb] at hL
      simp only [if_true] at hL
      simp [← hL]

/-- C4: assuming the base initialisation of the host succeeds, `python_dd_init`
signals the host to start delivery exactly when the conditions of `readyState` hold
(script path configured, target module imports, queue attribute present under the
configured name or under `queue`, init absent or returning); it then returns the
result of that signal, and in every other case it returns false without the signal. -/
theorem python_dd_init_starts_iff (E : Env σ) (self : PythonDestDriver) (s : σ)
    (hhost : (E.log_dest_driver_init_method s).1 = true) :
    (Event.log_threaded_dest_driver_start ∈ (python_dd_init E self s).trace
        ↔ (readyState E self s).isSome = true)
    ∧ (∀ sx, readyState E self s = some sx →
        (python_dd_init E self s).ret.1 = (E.log_threaded_dest_driver_start sx).1)
    ∧ (readyState E self s = none →
        (python_dd_init E self s).ret.1 = false
        ∧ Event.log_threaded_dest_driver_start ∉ (python_dd_init E self s).trace) :=
  python_dd_init_ready E self s hhost

/-- C4 at `boomWorld`, where the start succeeds, and at `onlyDeinitWorld`, where the
script has no `queue`. -/
theorem python_dd_init_starts_iff_witness :
    (boomWorld.env.log_dest_driver_init_method []).1 = true
    ∧ Event.log_threaded_dest_driver_start ∈ (python_dd_init boomWorld.env sampleDriver []).trace
    ∧ (python_dd_init boomWorld.env sampleDriver []).ret.1 = true
    ∧ (python_dd_init onlyDeinitWorld.env sampleDriver []).ret.1 = false
    ∧ Event.log_threaded_dest_driver_start
        ∉ (python_dd_init onlyDeinitWorld.env sampleDriver []).trace :=
  ⟨rfl,
    (python_dd_init_starts_iff boomWorld.env sampleDriver [] rfl).1.2 rfl,
    (python_dd_init_starts_iff boomWorld.env sampleDriver [] rfl).2.1 [1] rfl,
    ((python_dd_init_starts_iff onlyDeinitWorld.env sampleDriver [] rfl).2.2 rfl).1,
    ((python_dd_init_starts_iff onlyDeinitWorld.env sampleDriver [] rfl).2.2 rfl).2⟩

theorem readyState_without_imports (E : Env σ) (self : PythonDestDriver) (s : σ)
    (h : afterImports E self.imports (E.log_dest_driver_init_method s).2
      = (E.log_dest_driver_init_method s).2) :
    readyState E { self with imports := [] } s = readyState E self s := by
  simp only [readyState, afterImports, h]

/-- C8, as the code has it: once `python_dd_init` is past the check of the script path
and the base initialisation of the host, it attempts every name of the import list
once, in the configured order, before it attempts the target module; the error events
of that phase are as many as the names that fail to import; and no result of these
imports is consulted, so that a list whose imports leave the world state as they found
it gives the same result, and the same signal to the host, as the empty list. -/
theorem python_dd_init_imports (E : Env σ) (self : PythonDestDriver) (s : σ) (f : CStr)
    (hf : self.filename = some f)
    (hhost : (E.log_dest_driver_init_method s).1 = true) :
    (∃ tr rest, (python_dd_init E self s).trace
          = Event.log_dest_driver_init_method :: Event.PyGILState_Ensure :: (tr ++ rest)
        ∧ tr.filterMap importName = self.imports
        ∧ rest.filterMap importName = [f]
        ∧ (tr.filter isError).length
            = failedImports E self.imports (E.log_dest_driver_init_method s).2
        ∧ tr.filter isInvocation = [])
    ∧ (afterImports E self.imports (E.log_dest_driver_init_method s).2
          = (E.log_dest_driver_init_method s).2 →
        (python_dd_init E self s).ret.1
            = (python_dd_init E { self with imports := [] } s).ret.1
        ∧ (Event.log_threaded_dest_driver_start ∈ (python_dd_init E self s).trace
            ↔ Event.log_threaded_dest_driver_start
                ∈ (python_dd_init E { self with imports := [] } s).trace)) := by
  constructor
  · obtain ⟨rest, hsplit, hrest⟩ :=
      locked_split E (configured E self) f (E.log_dest_driver_init_method s).2
    have hnames := perform_imports_names E (configured E self)
      (E.log_dest_driver_init_method s).2
    have herrs := perform_imports_errors E (configured E self)
      (E.log_dest_driver_init_method s).2
    have hcalls := perform_imports_calls E (configured E self)
      (E.log_dest_driver_init_method s).2
    rw [configured_imports] at hnames herrs
    rw [python_dd_init_run E self s f hf hhost]
    split
    · refine ⟨_, rest ++ [Event.PyGILState_Release,
          Event.msg_verbose "Initializing Python destination"
            [evt_tag_str "driver" (python_dd_init_locked E (configured E self) f
                (E.log_dest_driver_init_method s).2).ret.2.id,
             evt_tag_str "script" (python_dd_init_locked E (configured E self) f
                (E.log_dest_driver_init_method s).2).ret.2.filename],
          Event.log_threaded_dest_driver_start], ?_, hnames, ?_, herrs, hcalls⟩
      · simp only [hsplit, List.append_assoc]
      · simp [List.filterMap_append, hrest, importName]
    · refine ⟨_, rest ++ [Event.PyGILState_Release], ?_, hnames, ?_, herrs, hcalls⟩
      · simp only [hsplit, List.append_assoc]
      · simp [List.filterMap_append, hrest, importName]
  · intro hst
    have hr := readyState_without_imports E self s hst
    have h1 := python_dd_init_ready E self s hhost
    have h0 := python_dd_init_ready E { self with imports := [] } s hhost
    rw [hr] at h0
    refine ⟨?_, h1.1.trans h0.1.symm⟩
    cases hrs : readyState E self s with
    | none => rw [(h1.2.2 hrs).1, (h0.2.2 hrs).1]
    | some sx => rw [h1.2.1 sx hrs, h0.2.1 sx hrs]

/-- C8 as stated fails: in `pathWorld` the script imports only after `sitepath` has
been imported, so the start succeeds with the import list `sitepath` and fails with
the empty list. -/
theorem python_dd_init_imports_change_outcome :
    pathDriver.imports = ["sitepath".toList]
    ∧ (python_dd_init pathWorld.env pathDriver []).ret.1 = true
    ∧ (python_dd_init pathWorld.env { pathDriver with imports := [] } []).ret.1 = false := by
  decide

/-- The amended C8 at the import list `nonexistent_module` in `quietWorld`, where
`queue` exists: the start succeeds as with the empty list, and exactly one import error
is logged. -/
theorem python_dd_init_imports_witness :
    importsDriver.filename = some "script".toList
    ∧ (quietWorld.env.log_dest_driver_init_method []).1 = true
    ∧ afterImports quietWorld.env importsDriver.imports [] = []
    ∧ failedImports quietWorld.env importsDriver.imports [] = 1
    ∧ (python_dd_init quietWorld.env importsDriver []).ret.1 = true
    ∧ (python_dd_init quietWorld.env importsDriver []).ret.1
        = (python_dd_init quietWorld.env { importsDriver with imports := [] } []).ret.1
    ∧ ((python_dd_init quietWorld.env importsDriver []).trace.filter isError).length = 1
    ∧ (∃ tr rest, (python_dd_init quietWorld.env importsDriver []).trace
          = Event.log_dest_driver_init_method :: Event.PyGILState_Ensure :: (tr ++ rest)
        ∧ tr.filterMap importName = ["nonexistent_module".toList]
        ∧ rest.filterMap importName = ["script".toList]
        ∧ (tr.filter isError).length = 1
        ∧ tr.filter isInvocation = []) :=
  ⟨rfl, rfl, rfl, rfl, by decide,
    ((python_dd_init_imports quietWorld.env importsDriver [] "script".toList rfl rfl).2
      rfl).1,
    by decide,
    (python_dd_init_imports quietWorld.env importsDriver [] "script".toList rfl rfl).1⟩

end StartClaims

/-! ## Stop, free, and the interpreter lock -/

section StopClaims

variable {σ : Type}

theorem python_dd_deinit_run (E : Env σ) (self : PythonDestDriver) (s : σ) :
    python_dd_deinit E self s
      = ⟨(E.log_threaded_dest_driver_deinit_method (_py_invoke_deinit E self s).st).1,
         (E.log_threaded_dest_driver_deinit_method (_py_invoke_deinit E self s).st).2,
         Event.PyGILState_Ensure :: ((_py_invoke_deinit E self s).trace
           ++ [Event.PyGILState_Release, Event.log_threaded_dest_driver_deinit_method])⟩ := by
  simp [python_dd_deinit]

theorem helper_count_zero (l : List Event) (h : ∀ e ∈ l, isHelperEvent e = true)
    (e : Event) (he : isHelperEvent e = false) : l.count e = 0 := by
  rw [List.count_eq_zero]
  intro hmem
  rw [h e hmem] at he
  exact Bool.noConfusion he

/-- C7: `python_dd_deinit` always completes: it runs the shutdown step of the host
exactly once, as its last step, and returns the result of that step, whether the
deinit callable is absent, returns, or raises; when a bound deinit raises, exactly one
diagnostic event is logged, the error message of the failed call. -/
theorem python_dd_deinit_completes (E : Env σ) (self : PythonDestDriver) (s : σ) :
    (python_dd_deinit E self s).ret
        = (E.log_threaded_dest_driver_deinit_method (_py_invoke_deinit E self s).st).1
    ∧ (python_dd_deinit E self s).trace.getLast?
        = some Event.log_threaded_dest_driver_deinit_method
    ∧ (python_dd_deinit E self s).trace.count Event.log_threaded_dest_driver_deinit_method = 1
    ∧ (self.py.deinit = none →
        (python_dd_deinit E self s).ret = (E.log_threaded_dest_driver_deinit_method s).1
        ∧ (python_dd_deinit E self s).trace.filter isDiagnostic = [])
    ∧ (∀ d v, self.py.deinit = some d →
        (E.PyObject_CallFunctionObjArgs d none s).1 = CallResult.returned v →
        (python_dd_deinit E self s).ret
          = (E.log_threaded_dest_driver_deinit_method
              (E.PyObject_CallFunctionObjArgs d none s).2).1
        ∧ (python_dd_deinit E self s).trace.filter isDiagnostic = [])
    ∧ (∀ d exc, self.py.deinit = some d →
        (E.PyObject_CallFunctionObjArgs d none s).1 = CallResult.raised exc →
        ((python_dd_deinit E self s).trace.filter isDiagnostic).length = 1
        ∧ ((python_dd_deinit E self s).trace.filter isError).length = 1) := by
  have hH := invoke_deinit_helper E self s
  rw [python_dd_deinit_run]
  refine ⟨rfl, ?_, ?_, ?_, ?_, ?_⟩
  · have : Event.PyGILState_Ensure :: ((_py_invoke_deinit E self s).trace
        ++ [Event.PyGILState_Release, Event.log_threaded_dest_driver_deinit_method])
        = (Event.PyGILState_Ensure :: ((_py_invoke_deinit E self s).trace
          ++ [Event.PyGILState_Release])) ++ [Event.log_threaded_dest_driver_deinit_method] := by
      simp
    rw [this, List.getLast?_append]
    rfl
  · have h0 := helper_count_zero _ hH Event.log_threaded_dest_driver_deinit_method rfl
    simp [List.count_cons, List.count_append, h0]
  · intro hd
    simp [_py_invoke_deinit, hd, isDiagnostic]
  · intro d v hd hv
    simp [_py_invoke_deinit, hd, _py_invoke_function, hv, isDiagnostic]
  · intro d exc hd hx
    simp [_py_invoke_deinit, hd, _py_invoke_function, hx, isDiagnostic, isError,
      callable_name_trace]

/-- C7 at `stopWorld`, where the bound `deinit` raises. -/
theorem python_dd_deinit_completes_witness :
    stopDriver.py.deinit = some 12
    ∧ (stopWorld.env.PyObject_CallFunctionObjArgs 12 none []).1
        = CallResult.raised ⟨"RuntimeError".toList, some "late".toList⟩
    ∧ (python_dd_deinit stopWorld.env stopDriver []).ret = true
    ∧ ((python_dd_deinit stopWorld.env stopDriver []).trace.filter isDiagnostic).length = 1
    ∧ (python_dd_deinit stopWorld.env stopDriver []).trace.getLast?
        = some Event.log_threaded_dest_driver_deinit_method :=
  ⟨rfl, rfl,
    (python_dd_deinit_completes stopWorld.env stopDriver []).1,
    ((python_dd_deinit_completes stopWorld.env stopDriver []).2.2.2.2.2 12
      ⟨"RuntimeError".toList, some "late".toList⟩ rfl rfl).1,
    (python_dd_deinit_completes stopWorld.env stopDriver []).2.1⟩

/-- C6, as the code has it: `python_dd_deinit` does not release the bindings, so a
second call right after the first invokes a bound deinit callable again; only on a
driver whose bindings `_py_free_bindings` has cleared does `python_dd_deinit` invoke no
callable and log nothing: it takes and releases the lock and runs the shutdown step of
the host. -/
theorem python_dd_deinit_repeated (E : Env σ) (self : PythonDestDriver) (s : σ) :
    (python_dd_deinit E (_py_free_bindings self) s).trace
        = [Event.PyGILState_Ensure, Event.PyGILState_Release,
           Event.log_threaded_dest_driver_deinit_method]
    ∧ (∀ d, self.py.deinit = some d →
        (python_dd_deinit E self (python_dd_deinit E self s).st).trace.filter isInvocation
          = [Event.PyObject_CallFunctionObjArgs d none]) := by
  constructor
  · simp [python_dd_deinit_run, _py_invoke_deinit, _py_free_bindings]
  · intro d hd
    simp [python_dd_deinit_run, _py_invoke_deinit, hd, invoke_function_calls, isInvocation]

/-- C6 as stated fails: in `stopWorld` the first stop completes, and the second stop
calls `deinit` (object 12) again and logs its exception again. -/
theorem python_dd_deinit_second_call_invokes :
    (python_dd_deinit stopWorld.env stopDriver []).ret = true
    ∧ (python_dd_deinit stopWorld.env stopDriver
        (python_dd_deinit stopWorld.env stopDriver []).st).trace.filter isInvocation
        = [Event.PyObject_CallFunctionObjArgs 12 none]
    ∧ (python_dd_deinit stopWorld.env stopDriver
        (python_dd_deinit stopWorld.env stopDriver []).st).trace.filter isDiagnostic
        = [Event.msg_error "Exception while calling a Python function"
            [evt_tag_str "driver" (some "d_python#0".toList),
             evt_tag_str "script" (some "script".toList),
             evt_tag_str "function" (some "deinit".toList),
             evt_tag_str "exception" (some "RuntimeError: late".toList)]] := by
  decide

/-- The amended C6 at `stopWorld`. -/
theorem python_dd_deinit_repeated_witness :
    stopDriver.py.deinit = some 12
    ∧ (python_dd_deinit stopWorld.env stopDriver
        (python_dd_deinit stopWorld.env stopDriver []).st).trace.filter isInvocation
        = [Event.PyObject_CallFunctionObjArgs 12 none]
    ∧ (python_dd_deinit stopWorld.env (_py_free_bindings stopDriver) []).trace
        = [Event.PyGILState_Ensure, Event.PyGILState_Release,
           Event.log_threaded_dest_driver_deinit_method] :=
  ⟨rfl, (python_dd_deinit_repeated stopWorld.env stopDriver []).2 12 rfl,
    (python_dd_deinit_repeated stopWorld.env stopDriver []).1⟩

theorem python_dd_insert_bound (E : Env σ) (self : PythonDestDriver) (msg : LogMessage)
    (s : σ) (q : PyObject) (hq : self.py.queue = some q) :
    (python_dd_insert E self msg s).ret.isSome = true
    ∧ ∃ mid, (python_dd_insert E self msg s).trace
        = Event.PyGILState_Ensure :: (mid ++ [Event.PyGILState_Release])
      ∧ mid.filter isGil = [] := by
  by_cases hc : (E.py_value_pairs_apply self.on_error self.seq_num msg s).1.1 = false
      ∧ ¬ self.on_error &&& E.ON_ERROR_DROP_MESSAGE = 0
  · refine ⟨?_, [Event.py_value_pairs_apply self.seq_num msg], ?_, rfl⟩
    · simp [python_dd_insert, hc]
    · simp [python_dd_insert, hc]
  · have hH := invoke_function_helper E self q
      (E.py_value_pairs_apply self.on_error self.seq_num msg s).1.2
      (E.py_value_pairs_apply self.on_error self.seq_num msg s).2
    refine ⟨?_, Event.py_value_pairs_apply self.seq_num msg ::
      (_py_invoke_function E self q
        (E.py_value_pairs_apply self.on_error self.seq_num msg s).1.2
        (E.py_value_pairs_apply self.on_error self.seq_num msg s).2).trace, ?_, ?_⟩
    · simp only [python_dd_insert, _py_invoke_queue, hq, run_bind, run_call,
        run_PyGILState_Ensure]
      simp only [Bool.and_eq_true, Bool.not_eq_true', bne_iff_ne, ne_eq, hc, if_false,
        run_bind, run_pure]
      cases (_py_invoke_function E self q
        (E.py_value_pairs_apply self.on_error self.seq_num msg s).1.2
        (E.py_value_pairs_apply self.on_error self.seq_num msg s).2).ret <;> simp
    · simp only [python_dd_insert, _py_invoke_queue, hq, run_bind, run_call,
        run_PyGILState_Ensure]
      simp only [Bool.and_eq_true, Bool.not_eq_true', bne_iff_ne, ne_eq, hc, if_false,
        run_bind, run_pure]
      cases (_py_invoke_function E self q
        (E.py_value_pairs_apply self.on_error self.seq_num msg s).1.2
        (E.py_value_pairs_apply self.on_error self.seq_num msg s).2).ret <;> simp
    · simp [List.filter_cons, isGil, helper_not_gil _ hH]

/-- C9: in the event trace of each of `python_dd_init`, `python_dd_insert`,
`python_dd_deinit` and `python_dd_free`, whatever the environment answers, every
`PyGILState_Ensure` is followed by exactly one `PyGILState_Release` before the
operation returns and no release comes without an acquisition.  For `python_dd_insert`
this is on a driver with the queue callable bound, where it always returns, and on the
drop-on-error path of a failed marshalling. -/
theorem gil_strictly_paired (E : Env σ) (self : PythonDestDriver) (s : σ) :
    gilPaired (python_dd_init E self s).trace
    ∧ (∀ msg q, self.py.queue = some q →
        (python_dd_insert E self msg s).ret.isSome = true
        ∧ gilPaired (python_dd_insert E self msg s).trace)
    ∧ (∀ msg, (E.py_value_pairs_apply self.on_error self.seq_num msg s).1.1 = false →
        self.on_error &&& E.ON_ERROR_DROP_MESSAGE ≠ 0 →
        gilPaired (python_dd_insert E self msg s).trace)
    ∧ gilPaired (python_dd_deinit E self s).trace
    ∧ gilPaired (python_dd_free self s).trace := by
  refine ⟨?_, ?_, ?_, ?_, ?_⟩
  · cases hf : self.filename with
    | none =>
      exact gilPaired_plain _ (by simp [python_dd_init, hf, isGil])
    | some f =>
      cases hh : (E.log_dest_driver_init_method s).1 with
      | false =>
        exact gilPaired_plain _ (by simp [python_dd_init, hf, hh, isGil])
      | true =>
        have hH := helper_not_gil _
          (locked_helper E (configured E self) f (E.log_dest_driver_init_method s).2)
        rw [python_dd_init_run E self s f hf hh]
        split
        · exact gilPaired_bracket [Event.log_dest_driver_init_method] _ _ rfl hH rfl
        · exact gilPaired_bracket [Event.log_dest_driver_init_method] _ _ rfl hH rfl
  · intro msg q hq
    obtain ⟨hret, mid, htr, hmid⟩ := python_dd_insert_bound E self msg s q hq
    refine ⟨hret, ?_⟩
    rw [htr]
    exact gilPaired_bracket [] mid [] rfl hmid rfl
  · intro msg hm hd
    rw [(python_dd_insert_dropped E self msg s hm hd).2]
    rfl
  · rw [python_dd_deinit_run]
    exact gilPaired_bracket [] _ _ rfl (helper_not_gil _ (invoke_deinit_helper E self s)) rfl
  · cases hv : self.vp <;> simp [python_dd_free, _py_free_bindings, hv, gilPaired, gilDepth]

/-- C9 at `boomWorld`: the insert whose `queue` raises, on the started driver. -/
theorem gil_strictly_paired_witness :
    readyDriver.py.queue = some 10
    ∧ gilPaired (python_dd_init boomWorld.env readyDriver []).trace
    ∧ gilPaired (python_dd_insert boomWorld.env readyDriver [("a".toList, "b".toList)] []).trace
    ∧ (failBoomWorld.env.py_value_pairs_apply dropDriver.on_error dropDriver.seq_num
        [("a".toList, "b".toList)] []).1.1 = false
    ∧ dropDriver.on_error &&& failBoomWorld.env.ON_ERROR_DROP_MESSAGE ≠ 0
    ∧ gilPaired (python_dd_insert failBoomWorld.env dropDriver
        [("a".toList, "b".toList)] []).trace :=
  ⟨rfl, (gil_strictly_paired boomWorld.env readyDriver []).1,
    ((gil_strictly_paired boomWorld.env readyDriver []).2.1
      [("a".toList, "b".toList)] 10 rfl).2,
    rfl, by decide,
    (gil_strictly_paired failBoomWorld.env dropDriver []).2.2.1
      [("a".toList, "b".toList)] rfl (by decide)⟩

end StopClaims


/-! ## The identity strings -/

section Format

theorem g_snprintf_fits (n : Nat) (t : CStr) (h : t.length ≤ n - 1) : g_snprintf n t = t := by
  unfold g_snprintf
  exact List.take_of_length_le h

theorem g_snprintf_cut (n : Nat) (a b : CStr) (h : n - 1 ≤ a.length) :
    g_snprintf n (a ++ b) = g_snprintf n a := by
  unfold g_snprintf
  exact List.take_append_of_le_length h

theorem stats_instance_text_inj (null_text : CStr) (d1 d2 : PythonDestDriver) (q1 q2 : CStr)
    (hf : d1.filename = d2.filename) (hi : d1.init_func_name = d2.init_func_name)
    (hd : d1.deinit_func_name = d2.deinit_func_name)
    (h1 : d1.queue_func_name = some q1) (h2 : d2.queue_func_name = some q2)
    (h : stats_instance_text null_text d1 = stats_instance_text null_text d2) : q1 = q2 := by
  simp only [stats_instance_text, hf, hi, hd, h1, h2, fmt_s, List.append_assoc] at h
  have h3 := List.append_cancel_left (List.append_cancel_left (List.append_cancel_left
    (List.append_cancel_left (List.append_cancel_left h))))
  exact List.append_cancel_right h3

theorem persist_name_text_inj (null_text : CStr) (d1 d2 : PythonDestDriver) (q1 q2 : CStr)
    (hf : d1.filename = d2.filename) (hi : d1.init_func_name = d2.init_func_name)
    (hd : d1.deinit_func_name = d2.deinit_func_name)
    (h1 : d1.queue_func_name = some q1) (h2 : d2.queue_func_name = some q2)
    (h : persist_name_text null_text d1 = persist_name_text null_text d2) : q1 = q2 := by
  simp only [persist_name_text, hf, hi, hd, h1, h2, fmt_s, List.append_assoc] at h
  have h3 := List.append_cancel_left (List.append_cancel_left (List.append_cancel_left
    (List.append_cancel_left (List.append_cancel_left h))))
  exact List.append_cancel_right h3

/-- C5, as the code has it: for two drivers with the same script path, init function
name and deinit function name, and with different queue function names both set, each
of the two hooks gives different strings as long as the formatted texts fit into its
buffer of 1024 gchars, that is, have at most 1023 gchars. -/
theorem format_hooks_distinguish_queue (null_text : CStr) (d1 d2 : PythonDestDriver)
    (q1 q2 : CStr)
    (hf : d1.filename = d2.filename) (hi : d1.init_func_name = d2.init_func_name)
    (hd : d1.deinit_func_name = d2.deinit_func_name)
    (h1 : d1.queue_func_name = some q1) (h2 : d2.queue_func_name = some q2)
    (hne : q1 ≠ q2) :
    ((stats_instance_text null_text d1).length ≤ 1023 →
      (stats_instance_text null_text d2).length ≤ 1023 →
      python_dd_format_stats_instance null_text d1
        ≠ python_dd_format_stats_instance null_text d2)
    ∧ ((persist_name_text null_text d1).length ≤ 1023 →
      (persist_name_text null_text d2).length ≤ 1023 →
      python_dd_format_persist_name null_text d1
        ≠ python_dd_format_persist_name null_text d2) := by
  constructor
  · intro hl1 hl2 h
    unfold python_dd_format_stats_instance at h
    rw [g_snprintf_fits 1024 _ hl1, g_snprintf_fits 1024 _ hl2] at h
    exact hne (stats_instance_text_inj null_text d1 d2 q1 q2 hf hi hd h1 h2 h)
  · intro hl1 hl2 h
    unfold python_dd_format_persist_name at h
    rw [g_snprintf_fits 1024 _ hl1, g_snprintf_fits 1024 _ hl2] at h
    exact hne (persist_name_text_inj null_text d1 d2 q1 q2 hf hi hd h1 h2 h)

/-- C5 as stated fails: with a script path of 1016 gchars the buffer is full before the
queue function name, and the drivers with the queue functions `queue` and `other` get
the same string from each hook. -/
theorem format_hooks_truncate :
    longDriver.filename = longDriverOther.filename
    ∧ longDriver.init_func_name = longDriverOther.init_func_name
    ∧ longDriver.deinit_func_name = longDriverOther.deinit_func_name
    ∧ longDriver.queue_func_name ≠ longDriverOther.queue_func_name
    ∧ python_dd_format_stats_instance "(null)".toList longDriver
        = python_dd_format_stats_instance "(null)".toList longDriverOther
    ∧ python_dd_format_persist_name "(null)".toList longDriver
        = python_dd_format_persist_name "(null)".toList longDriverOther := by
  refine ⟨rfl, rfl, rfl, by decide, ?_, ?_⟩
  · have h : ∀ q : CStr, python_dd_format_stats_instance "(null)".toList
        { longDriver with queue_func_name := some q }
        = g_snprintf 1024 ("python,".toList ++ List.replicate 1016 'a') := by
      intro q
      simp only [python_dd_format_stats_instance, stats_instance_text, longDriver, fmt_s,
        List.append_assoc]
      rw [← List.append_assoc]
      exact g_snprintf_cut 1024 _ _ (by rw [List.length_append, List.length_replicate]; decide)
    exact (h "queue".toList).trans (h "other".toList).symm
  · have h : ∀ q : CStr, python_dd_format_persist_name "(null)".toList
        { longDriver with queue_func_name := some q }
        = g_snprintf 1024 ("python(".toList ++ List.replicate 1016 'a') := by
      intro q
      simp only [python_dd_format_persist_name, persist_name_text, longDriver, fmt_s,
        List.append_assoc]
      rw [← List.append_assoc]
      exact g_snprintf_cut 1024 _ _ (by rw [List.length_append, List.length_replicate]; decide)
    exact (h "queue".toList).trans (h "other".toList).symm

/-- The amended C5 at the drivers with the queue functions `queue` and `other`. -/
theorem format_hooks_distinguish_queue_witness :
    queueDriver.queue_func_name = some "queue".toList
    ∧ otherDriver.queue_func_name = some "other".toList
    ∧ "queue".toList ≠ "other".toList
    ∧ (persist_name_text "(null)".toList queueDriver).length ≤ 1023
    ∧ python_dd_format_stats_instance "(null)".toList queueDriver
        ≠ python_dd_format_stats_instance "(null)".toList otherDriver
    ∧ python_dd_format_persist_name "(null)".toList queueDriver
        ≠ python_dd_format_persist_name "(null)".toList otherDriver
    ∧ python_dd_format_persist_name "(null)".toList queueDriver
        = "python(script,(null),queue,(null))".toList :=
  ⟨rfl, rfl, by decide, by decide,
    (format_hooks_distinguish_queue "(null)".toList queueDriver otherDriver
      "queue".toList "other".toList rfl rfl rfl rfl rfl (by decide)).1
        (by decide) (by decide),
    (format_hooks_distinguish_queue "(null)".toList queueDriver otherDriver
      "queue".toList "other".toList rfl rfl rfl rfl rfl (by decide)).2
        (by decide) (by decide),
    by decide⟩

end Format


/-! ## The queue binding in the steady state -/

section Ready

variable {σ : Type}

theorem init_bindings_queue (E : Env σ) (self : PythonDestDriver) (f : CStr) (s : σ)
    (h : (_py_init_bindings E self f s).ret.1 = true) :
    ∃ q, (_py_init_bindings E self f s).ret.2.py.queue = some q := by
  revert h
  simp only [_py_init_bindings, run_bind]
  cases (_py_do_import E self f s).ret with
  | none => simp
  | some m =>
    simp only [run_bind]
    cases hq : (_py_get_attr_or_null E m self.queue_func_name
      (_py_do_import E self f s).st).ret with
    | none => simp
    | some q => simp

theorem locked_queue (E : Env σ) (self : PythonDestDriver) (f : CStr) (s : σ)
    (h : (python_dd_init_locked E self f s).ret.1 = true) :
    ∃ q, (python_dd_init_locked E self f s).ret.2.py.queue = some q := by
  revert h
  simp only [python_dd_init_locked, run_bind, run_pure]
  cases hb : (_py_init_bindings E self f (_py_perform_imports E self s).st).ret.1 with
  | false => simp
  | true =>
    intro _
    simpa using init_bindings_queue E self f _ hb

/-- The invariant of the steady state: whenever `python_dd_init` signals the host to
start delivery, it leaves the driver with the queue callable bound, which is the
driver that `python_dd_insert` is then called on. -/
theorem python_dd_init_binds_queue (E : Env σ) (self : PythonDestDriver) (s : σ)
    (h : Event.log_threaded_dest_driver_start ∈ (python_dd_init E self s).trace) :
    ∃ q, (python_dd_init E self s).ret.2.py.queue = some q := by
  cases hf : self.filename with
  | none => simp [python_dd_init, hf] at h
  | some f =>
    cases hh : (E.log_dest_driver_init_method s).1 with
    | false => simp [python_dd_init, hf, hh] at h
    | true =>
      have hN := helper_not_start _
        (locked_helper E (configured E self) f (E.log_dest_driver_init_method s).2)
      rw [python_dd_init_run E self s f hf hh] at h ⊢
      split at h
      · rename_i hb
        rw [if_pos hb]
        exact locked_queue E _ f _ hb
      · simp [hN] at h

end Ready

end PythonDest
